import Mathlib

/-
Verification of the renewable-microgrid optimizer (renewable_optimizer.py)
against its natural-language specification.

The shallow embedding models machine floats as real numbers.  Python
`float('inf')` values (only produced by the trial harness) are modelled by
`none : Option ℝ`, and NumPy NaN statistics over an empty sample are likewise
modelled by `none`.  Global NumPy random state is modelled by an abstract
pseudo-random generator interface `RNGModel`, threaded explicitly.
-/

namespace RenewableOpt

/-- Hourly scenario inputs consumed by `RenewableOptimizer.energy_cost`:
the fields `self.P_gen`, `self.P_demand`, `self.grid_price`,
`self.emergency_event` and `self.grid_available` of one trial. -/
structure MicrogridData where
  P_gen : ℕ → ℝ
  P_demand : ℕ → ℝ
  grid_price : ℕ → ℝ
  emergency_event : ℕ → Bool
  grid_available : ℕ → Bool

/-- `self.SOC_capacity_decay = [1.0 - 0.005*i for i in range(24)]`. -/
def SOC_capacity_decay (i : ℕ) : ℝ := 1 - 0.005 * (i : ℝ)

/-- Per-call simulation state of `energy_cost`: the running `total_cost`,
the current `SOC`, the instance field `self.temperature`, and `SOC_history`
(stored newest-first; the Python list appends at the end and reads the last
three elements, which is the same multiset). -/
structure EvalState where
  cost : ℝ
  SOC : ℝ
  temperature : ℝ
  SOC_history : List ℝ

/-- One iteration of the `for t_i in range(self.hours)` loop in
`RenewableOptimizer.energy_cost` (source lines 64-104). -/
noncomputable def energyStep (sc : MicrogridData) (S : ℝ) (u : ℕ → ℝ)
    (st : EvalState) (t : ℕ) : EvalState :=
  let effective_S := S * SOC_capacity_decay t
  let P_bess := u t * effective_S
  let P_grid := sc.P_demand t - sc.P_gen t - P_bess
  let c1 := st.cost +
    (if sc.emergency_event t then
       max 0 (sc.P_demand t * 1.5 - (sc.P_gen t + P_bess)) * 1000
     else 0)
  let c2 := c1 + (if sc.grid_available t = false ∧ 0 < P_grid then 1000000 else 0)
  let grid_cost := if 0 < P_grid then P_grid * sc.grid_price t else 0
  let degradation := 0.02 * |P_bess| ^ (1.5 : ℝ) * (1 + st.SOC / 0.9)
  let carbon_cost := P_grid * 0.487 * 2
  let c3 := c2 + (grid_cost + degradation + carbon_cost)
  let temp' := st.temperature + |P_bess / effective_S| / 0.05
  let c4 := c3 + (if 45 < temp' then (temp' - 45) ^ 2 * 10 else 0)
  let delta := if P_bess < 0 then (-P_bess * 0.95) / effective_S
               else -P_bess / (0.95 * effective_S)
  let SOC' := min 0.9 (max 0.1 (st.SOC + delta))
  let hist' := SOC' :: st.SOC_history
  let c5 := c4 +
    (if 3 ≤ t ∧ 0.2 < |SOC' - (hist'.take 3).sum / ((hist'.take 3).length : ℝ)|
     then 10000 else 0)
  ⟨c5, SOC', temp', hist'⟩

/-- `RenewableOptimizer.energy_cost(solution)` with the default horizon
`hours = 24` and `capital_cost = 500`.  The solution vector is split as
`S = solution[0]` and `u = solution[1:]`.  The `temperature` argument is the
value of the instance field `self.temperature` when the method is entered;
the method overwrites it with 25 before the loop (`self.temperature = 25`).
The returned pair is `(total_cost, final value of self.temperature)`. -/
noncomputable def energy_cost (sc : MicrogridData) (S : ℝ) (u : ℕ → ℝ)
    (temperature : ℝ) : ℝ × ℝ :=
  let st0 : EvalState := ⟨500 * S, 0.5, 25, []⟩
  let stF := (List.range 24).foldl (energyStep sc S u) st0
  let efficiency :=
    (((List.range 24).map sc.P_gen).sum + ((List.range 24).map (fun t => u t * S)).sum)
      / ((List.range 24).map sc.P_demand).sum
  let c := stF.cost + (if efficiency < 0.85 then (0.85 - efficiency) * 10000 else 0)
  (c + 100 * |Real.sin (S * 0.01)|, stF.temperature)

/-- The recursion underlying the module-level `calculate_soc`:
`socRec S u t` is `SOC[t]` (with `u = solution[1:]`; the loop body uses
`u[t]` for `t = 1 .. hours-1` and never reads `u[0]`). -/
noncomputable def socRec (S : ℝ) (u : ℕ → ℝ) : ℕ → ℝ
  | 0 => 0.5
  | t + 1 =>
    let P_bess := u (t + 1) * S
    let delta := if P_bess < 0 then (-P_bess * 0.95) / S else -P_bess / (0.95 * S)
    min 0.9 (max 0.1 (socRec S u t + delta))

/-- `calculate_soc(solution, hours)`: the SOC time series of length `hours`. -/
noncomputable def calculate_soc (S : ℝ) (u : ℕ → ℝ) (hours : ℕ) : List ℝ :=
  (List.range hours).map (socRec S u)

/-- Abstract interface for the global NumPy random generator, with one field
per kind of draw `load_data` performs.  `bern24 p` draws 24 flags that are
`true` with probability `p` (`np.random.choice([0,1], 24, p=[1-p, p])`);
`choice4of24` draws 4 hours without replacement; `uniform4 lo hi` draws 4
values uniformly from `[lo, hi)`. -/
structure RNGModel where
  State : Type
  seedInit : ℕ → State
  randn24 : State → (Fin 24 → ℝ) × State
  bern24 : ℝ → State → (Fin 24 → Bool) × State
  normal24 : ℝ → ℝ → State → (Fin 24 → ℝ) × State
  choice4of24 : State → (Fin 4 → Fin 24) × State
  uniform4 : ℝ → ℝ → State → (Fin 4 → ℝ) × State

/-- The eight hourly arrays produced by `RenewableOptimizer.load_data`. -/
structure LoadedData where
  P_solar : Fin 24 → ℝ
  P_wind : Fin 24 → ℝ
  P_demand : Fin 24 → ℝ
  grid_price : Fin 24 → ℝ
  solar_failure : Fin 24 → Bool
  wind_failure : Fin 24 → Bool
  grid_available : Fin 24 → Bool
  emergency_event : Fin 24 → Bool

/-- `base_solar = 50 * np.sin(np.pi*(t-6)/12) + 1`. -/
noncomputable def base_solar (t : Fin 24) : ℝ :=
  50 * Real.sin (Real.pi * ((t.1 : ℝ) - 6) / 12) + 1

/-- `base_wind = 30 * np.cos(np.pi*(t-12)/6) + 5`. -/
noncomputable def base_wind (t : Fin 24) : ℝ :=
  30 * Real.cos (Real.pi * ((t.1 : ℝ) - 12) / 6) + 5

/-- `base_demand = 80 + 30 * np.sin(np.pi*(t+6)/12)`. -/
noncomputable def base_demand (t : Fin 24) : ℝ :=
  80 + 30 * Real.sin (Real.pi * ((t.1 : ℝ) + 6) / 12)

/-- `base_price = 0.15 + 0.05 * np.sin(np.pi*(t-8)/12) + 0.05`. -/
noncomputable def base_price (t : Fin 24) : ℝ :=
  0.15 + 0.05 * Real.sin (Real.pi * ((t.1 : ℝ) - 8) / 12) + 0.05

/-- The integer 0/1 flag arrays of the Python code, as real factors. -/
def boolToReal (b : Bool) : ℝ := if b then 1 else 0

/-- `RenewableOptimizer.load_data(trial_num)` (source lines 28-54).  The
incoming global RNG state `g` is the NumPy global state at call time; the
first action of the method is `np.random.seed(trial_num)`, which replaces it.
Returns the eight arrays together with the final RNG state. -/
noncomputable def load_data (R : RNGModel) (g : R.State) (trial_num : ℕ) :
    LoadedData × R.State :=
  let g0 := R.seedInit trial_num
  let r1 := R.randn24 g0
  let variation : Fin 24 → ℝ := fun t => 1 + 0.15 * r1.1 t
  let r2 := R.bern24 0.1 r1.2
  let r3 := R.bern24 0.15 r2.2
  let r4 := R.bern24 0.8 r3.2
  let r5 := R.bern24 0.1 r4.2
  let P_solar : Fin 24 → ℝ := fun t =>
    max (base_solar t * variation t * boolToReal (r2.1 t)) 0
  let P_wind : Fin 24 → ℝ := fun t =>
    max (base_wind t * variation t * boolToReal (r3.1 t)) 0
  let r6 := R.normal24 1 0.15 r5.2
  let P_demand : Fin 24 → ℝ := fun t => base_demand t * variation t * r6.1 t
  let price0 : Fin 24 → ℝ := fun t => max (base_price t * variation t) 0.05
  let r7 := R.choice4of24 r6.2
  let r8 := R.uniform4 3 5 r7.2
  let grid_price : Fin 24 → ℝ := fun t =>
    match (List.finRange 4).find? (fun i => decide (r7.1 i = t)) with
    | some i => price0 t * r8.1 i
    | none => price0 t
  (⟨P_solar, P_wind, P_demand, grid_price, r2.1, r3.1, r4.1, r5.1⟩, r8.2)

/-- Per-algorithm result collections built by `run_multiple_trials`:
`results[name]['costs' | 'histories' | 'solutions']`.  A cost of
`float('inf')` is modelled by `none`. -/
structure AlgoResults where
  costs : List (Option ℝ)
  histories : List (List ℝ)
  solutions : List (Option (List ℝ))

/-- The body of the inner `try/except` of `run_multiple_trials` for one
algorithm and one trial.  `behave name t` is `some (best_x, history)` when the
algorithm's method returns normally on trial `t`, and `none` when it raises.
On success the recorded cost is `history[-1] if history else np.inf`
(`List.getLast?` is `none` exactly on the empty history); on failure the
record is `{'cost': np.inf, 'history': [], 'solution': None}`. -/
def trial_record (behave : ℕ → ℕ → Option (List ℝ × List ℝ)) (name t : ℕ) :
    Option ℝ × List ℝ × Option (List ℝ) :=
  match behave name t with
  | none => (none, [], none)
  | some (best_x, history) => (history.getLast?, history, some best_x)

/-- The per-algorithm collections accumulated by `run_multiple_trials` over
trials `0 .. n-1` (appended in trial order). -/
def algo_results (behave : ℕ → ℕ → Option (List ℝ × List ℝ)) (name n : ℕ) :
    AlgoResults :=
  ⟨(List.range n).map fun t => (trial_record behave name t).1,
   (List.range n).map fun t => (trial_record behave name t).2.1,
   (List.range n).map fun t => (trial_record behave name t).2.2⟩

/-- `run_multiple_trials(optimizer_class, algorithms, num_trials)`:
the registry is a list of algorithm identifiers; the returned dictionary maps
each registered algorithm to its three per-trial collections. -/
def run_multiple_trials (algos : List ℕ)
    (behave : ℕ → ℕ → Option (List ℝ × List ℝ)) (n : ℕ) :
    List (ℕ × AlgoResults) :=
  algos.map fun name => (name, algo_results behave name n)

/-- The per-algorithm summary produced by `analyze_results`; NumPy NaN
(returned when there is no finite trial) is modelled by `none`. -/
structure Summary where
  mean : Option ℝ
  std : Option ℝ
  min : Option ℝ
  max : Option ℝ
  success_rate : ℝ

/-- `np.min` over a nonempty list (`none` on the empty list). -/
def listMin : List ℝ → Option ℝ
  | [] => none
  | x :: xs => some (xs.foldl Min.min x)

/-- `np.max` over a nonempty list (`none` on the empty list). -/
def listMax : List ℝ → Option ℝ
  | [] => none
  | x :: xs => some (xs.foldl Max.max x)

/-- The body of `analyze_results` for one algorithm: filter the finite costs
(`costs[np.isfinite(costs)]`); if none remain, return NaN statistics and
success rate 0; otherwise the NumPy mean, population standard deviation,
minimum, maximum, and `len(valid_trials)/len(costs)`. -/
noncomputable def analyze_results (costs : List (Option ℝ)) : Summary :=
  match costs.filterMap id with
  | [] => ⟨none, none, none, none, 0⟩
  | x :: xs =>
    let valid := x :: xs
    let m := valid.sum / (valid.length : ℝ)
    ⟨some m,
     some (Real.sqrt ((valid.map fun c => (c - m) ^ 2).sum / (valid.length : ℝ))),
     listMin valid, listMax valid,
     (valid.length : ℝ) / (costs.length : ℝ)⟩

/-- Concrete scenario of the spec's worked example: zero generation, constant
demand 80, constant price 0.2, no emergency, grid always available. -/
noncomputable def scExample : MicrogridData :=
  ⟨fun _ => 0, fun _ => 80, fun _ => 0.2, fun _ => false, fun _ => true⟩

/-- Concrete scenario with generation far above demand every hour (valid
non-negative arrays, price at the 0.05 floor, no faults). -/
noncomputable def scSurplus : MicrogridData :=
  ⟨fun _ => 1000000, fun _ => 1, fun _ => 0.05, fun _ => false, fun _ => true⟩

/-- The all-zero dispatch schedule. -/
noncomputable def uZero : ℕ → ℝ := fun _ => 0

/-- Dispatch schedule discharging only at hour 1. -/
noncomputable def uSign : ℕ → ℝ := fun k => if k = 1 then 0.2 else 0

/-- Dispatch schedule with a distinctive entry at index 0. -/
noncomputable def uFirstA : ℕ → ℝ := fun k => if k = 0 then 0.25 else 0.3

/-- Same as `uFirstA` away from index 0, different at index 0. -/
noncomputable def uFirstB : ℕ → ℝ := fun k => if k = 0 then -0.25 else 0.3

/-- A concrete RNG whose draws are fixed in call order: `vraw` for the shared
variation noise, then the solar/wind/grid/emergency flag arrays, the demand
noise, the spike hours, and the spike factors.  The state is a call counter. -/
noncomputable def cRNG (vraw : Fin 24 → ℝ) (sf wf ga em : Fin 24 → Bool)
    (dn : Fin 24 → ℝ) (sh : Fin 4 → Fin 24) (uf : Fin 4 → ℝ) : RNGModel where
  State := ℕ
  seedInit := fun _ => 0
  randn24 := fun s => (vraw, s + 1)
  bern24 := fun _ s => ((if s = 1 then sf else if s = 2 then wf else if s = 3 then ga else em), s + 1)
  normal24 := fun _ _ s => (dn, s + 1)
  choice4of24 := fun s => (sh, s + 1)
  uniform4 := fun _ _ s => (uf, s + 1)

/-- RNG draws: no noise, every failure flag raised, grid available, no
emergency, unit demand noise, spike hours all 0, spike factor 3. -/
noncomputable def rngOutage : RNGModel :=
  cRNG (fun _ => 0) (fun _ => true) (fun _ => true) (fun _ => true)
    (fun _ => false) (fun _ => 1) (fun _ => 0) (fun _ => 3)

/-- RNG draws with shared variation noise -10 (so `variation = -0.5`). -/
noncomputable def rngNegDemand : RNGModel :=
  cRNG (fun _ => -10) (fun _ => true) (fun _ => true) (fun _ => true)
    (fun _ => false) (fun _ => 1) (fun _ => 0) (fun _ => 3)

/-- RNG draws: no noise and every failure flag CLEAR (no outage anywhere). -/
noncomputable def rngNoOutage : RNGModel :=
  cRNG (fun _ => 0) (fun _ => false) (fun _ => false) (fun _ => true)
    (fun _ => false) (fun _ => 1) (fun _ => 0) (fun _ => 3)

/-- Harness behaviour where every algorithm always succeeds with best
solution `[1]` and one-point history `[2]`. -/
noncomputable def behaveOk : ℕ → ℕ → Option (List ℝ × List ℝ) :=
  fun _ _ => some ([1], [2])

/-- Harness behaviour identical to `behaveOk` except that algorithm 0 raises
on every trial. -/
noncomputable def behaveFail0 : ℕ → ℕ → Option (List ℝ × List ℝ) :=
  fun c t => if c = 0 then none else behaveOk c t

/-- C4: `energy_cost` is idempotent and effectively side-effect-free.  The
only instance state it touches, `self.temperature`, is reset to 25 at the top
of the method (line 62), so the cost is independent of the temperature left
behind by any earlier call: calling with any two incoming temperature values,
and in particular calling twice in succession (the second call receiving the
temperature the first call wrote), yields the identical cost. -/
theorem energy_cost_idempotent (sc : MicrogridData) (S : ℝ) (u : ℕ → ℝ)
    (T T' : ℝ) :
    (energy_cost sc S u T).1 = (energy_cost sc S u T').1 ∧
    (energy_cost sc S u (energy_cost sc S u T).2).1 = (energy_cost sc S u T).1 :=
  ⟨rfl, rfl⟩

/-- C5: `load_data` is deterministic in the seed: its first action is
`np.random.seed(trial_num)`, so for any pseudo-random generator model the
eight produced arrays are independent of the incoming global RNG state, and
two calls with the same trial number produce identical scenarios. -/
theorem load_data_deterministic (R : RNGModel) (g g' : R.State) (trial : ℕ) :
    (load_data R g trial).1 = (load_data R g' trial).1 :=
  rfl

/-- C7: every element of the SOC sequence returned by `calculate_soc` lies in
`[0.1, 0.9]` and the first element is 0.5: the entry at index `t` is
`socRec S u t`, which is 0.5 at `t = 0` and clipped into `[0.1, 0.9]` at
every later index. -/
theorem calculate_soc_in_range (S : ℝ) (u : ℕ → ℝ) (hours t : ℕ)
    (hh : 1 ≤ hours) (hS1 : 1 ≤ S) (hS2 : S ≤ 2000) (ht : t < hours) :
    (calculate_soc S u hours).get? t = some (socRec S u t) ∧
    0.1 ≤ socRec S u t ∧ socRec S u t ≤ 0.9 ∧
    (calculate_soc S u hours).get? 0 = some (0.5 : ℝ) := by
  refine ⟨?_, ?_, ?_, ?_⟩
  · simp only [calculate_soc, List.get?_eq_getElem?, List.getElem?_map]
    rw [List.getElem?_range ht]
    rfl
  · cases t with
    | zero => norm_num [socRec]
    | succ n =>
      simp only [socRec]
      exact le_min (by norm_num) (le_max_left _ _)
  · cases t with
    | zero => norm_num [socRec]
    | succ n => simp only [socRec]; exact min_le_left _ _
  · have h0 : (0 : ℕ) < hours := hh
    simp only [calculate_soc, List.get?_eq_getElem?, List.getElem?_map]
    rw [List.getElem?_range h0]
    rfl

/-- C7 witness: the range theorem instantiated at `hours = 2`, `S = 1`,
`u = uSign`, index `t = 1`. -/
theorem calculate_soc_in_range_witness :
    ((1 : ℕ) ≤ 2 ∧ (1 : ℝ) ≤ 1 ∧ (1 : ℝ) ≤ 2000 ∧ 1 < 2) ∧
    ((calculate_soc 1 uSign 2).get? 1 = some (socRec 1 uSign 1) ∧
     0.1 ≤ socRec 1 uSign 1 ∧ socRec 1 uSign 1 ≤ 0.9 ∧
     (calculate_soc 1 uSign 2).get? 0 = some (0.5 : ℝ)) :=
  ⟨by norm_num,
   calculate_soc_in_range 1 uSign 2 1 (by norm_num) (by norm_num)
     (by norm_num) (by norm_num)⟩

/-- For a positive capacity the per-hour SOC delta of `calculate_soc`
depends only on the dispatch fraction: the capacity cancels. -/
theorem soc_delta_capacity_cancels (S v : ℝ) (hS : 0 < S) :
    (if v * S < 0 then (-(v * S) * 0.95) / S else -(v * S) / (0.95 * S)) =
      if v < 0 then -v * 0.95 else -v / 0.95 := by
  rcases lt_or_le v 0 with hv | hv
  · rw [if_pos (mul_neg_of_neg_of_pos hv hS), if_pos hv]
    field_simp
    ring
  · rw [if_neg (not_lt.mpr (mul_nonneg hv hS.le)), if_neg (not_lt.mpr hv)]
    rw [div_eq_div_iff (by positivity) (by positivity)]
    ring

/-- For positive capacities and dispatch schedules agreeing at indices
`1 .. hours-1`, the SOC recursions coincide at every index below `hours`. -/
theorem socRec_congr (S1 S2 : ℝ) (u1 u2 : ℕ → ℝ) (hours : ℕ)
    (h1 : 0 < S1) (h2 : 0 < S2)
    (hagree : ∀ k, 1 ≤ k → k < hours → u1 k = u2 k) :
    ∀ t, t < hours → socRec S1 u1 t = socRec S2 u2 t := by
  intro t
  induction t with
  | zero => intro _; rfl
  | succ n ih =>
    intro hlt
    have hn : n < hours := Nat.lt_of_succ_lt hlt
    have hu : u1 (n + 1) = u2 (n + 1) :=
      hagree (n + 1) (Nat.succ_le_succ (Nat.zero_le n)) hlt
    simp only [socRec]
    rw [soc_delta_capacity_cancels S1 (u1 (n + 1)) h1,
        soc_delta_capacity_cancels S2 (u2 (n + 1)) h2, hu, ih hn]

/-- C10 (amended): for two solutions whose capacities are both positive and
whose dispatch fractions agree at indices `1 .. hours-1`, `calculate_soc`
returns identical SOC sequences — the trace is independent of the capacity
and of the first dispatch fraction `u[0]`. -/
theorem calculate_soc_capacity_independent (S1 S2 : ℝ) (u1 u2 : ℕ → ℝ)
    (hours : ℕ) (h1 : 0 < S1) (h2 : 0 < S2)
    (hagree : ∀ k, 1 ≤ k → k < hours → u1 k = u2 k) :
    calculate_soc S1 u1 hours = calculate_soc S2 u2 hours := by
  unfold calculate_soc
  refine List.map_congr_left ?_
  intro t htmem
  exact socRec_congr S1 S2 u1 u2 hours h1 h2 hagree t (List.mem_range.mp htmem)

/-- C10 witness: capacities 1 and 2, schedules differing only at index 0. -/
theorem calculate_soc_capacity_independent_witness :
    ((0 : ℝ) < 1 ∧ (0 : ℝ) < 2) ∧
    calculate_soc 1 uFirstA 2 = calculate_soc 2 uFirstB 2 :=
  ⟨by norm_num,
   calculate_soc_capacity_independent 1 2 uFirstA uFirstB 2 (by norm_num)
     (by norm_num)
     (fun k hk _ => by
       have hne : k ≠ 0 := by omega
       simp [uFirstA, uFirstB, hne])⟩

/-- C10 counterexample: as stated over merely *nonzero* capacities the claim
is false: with `u[1] = 0.2`, capacity 1 gives `SOC[1] = 0.5 - 0.2/0.95`
while capacity -1 charges instead (`u[1]*S < 0`) and gives
`SOC[1] = 0.5 - 0.19`; the traces differ although both capacities are
nonzero and the schedules agree at index 1. -/
theorem calculate_soc_depends_on_capacity_sign :
    (1 : ℝ) ≠ 0 ∧ (-1 : ℝ) ≠ 0 ∧
    calculate_soc 1 uSign 2 ≠ calculate_soc (-1) uSign 2 := by
  refine ⟨by norm_num, by norm_num, ?_⟩
  have hr : List.range 2 = [0, 1] := rfl
  simp only [calculate_soc, hr, List.map_cons, List.map_nil]
  intro h
  have h1 : socRec (1 : ℝ) uSign 1 = socRec (-1 : ℝ) uSign 1 := by
    simpa using congrArg (fun l => l.get? 1) h
  rw [show socRec (1 : ℝ) uSign 1 = 0.5 - 0.2 / 0.95 by
        simp only [socRec, uSign]
        norm_num,
      show socRec (-1 : ℝ) uSign 1 = 0.31 by
        simp only [socRec, uSign]
        norm_num] at h1
  norm_num at h1

/-- C8: harness fault isolation.  If one registered algorithm raises on every
invocation, `run_multiple_trials` still records for it exactly `n` entries,
each with cost `inf` (`none`), empty history and null solution; and the
collections recorded for every other registered algorithm are exactly those
it would have produced had the failing algorithm behaved in any other way. -/
theorem run_multiple_trials_fault_isolation (algos : List ℕ)
    (behave behave' : ℕ → ℕ → Option (List ℝ × List ℝ)) (a n : ℕ)
    (hfail : ∀ t, behave' a t = none)
    (hsame : ∀ c, c ≠ a → behave' c = behave c) :
    (∀ p ∈ run_multiple_trials algos behave' n, p.1 = a →
       p.2 = ⟨List.replicate n none, List.replicate n [], List.replicate n none⟩) ∧
    (∀ p ∈ run_multiple_trials algos behave' n, p.1 ≠ a →
       p.2 = algo_results behave p.1 n) ∧
    (∀ p ∈ run_multiple_trials algos behave' n,
       p.2.costs.length = n ∧ p.2.histories.length = n ∧ p.2.solutions.length = n) := by
  have hmem : ∀ p ∈ run_multiple_trials algos behave' n,
      p.2 = algo_results behave' p.1 n := by
    intro p hp
    obtain ⟨c, _, rfl⟩ := List.mem_map.mp hp
    rfl
  refine ⟨?_, ?_, ?_⟩
  · intro p hp hpa
    rw [hmem p hp, hpa]
    have hrec : ∀ t : ℕ, trial_record behave' a t = (none, [], none) := by
      intro t
      simp [trial_record, hfail t]
    simp [algo_results, hrec, List.map_const']
  · intro p hp hpa
    rw [hmem p hp]
    have hb : behave' p.1 = behave p.1 := hsame p.1 hpa
    simp [algo_results, trial_record, hb]
  · intro p hp
    rw [hmem p hp]
    simp [algo_results]

/-- C8 witness: registry `[0, 1]`, algorithm 0 failing on every trial under
`behaveFail0`, compared against the fully succeeding `behaveOk`. -/
theorem run_multiple_trials_fault_isolation_witness :
    (∀ t, behaveFail0 0 t = none) ∧
    ((∀ p ∈ run_multiple_trials [0, 1] behaveFail0 2, p.1 = 0 →
        p.2 = ⟨List.replicate 2 none, List.replicate 2 [], List.replicate 2 none⟩) ∧
     (∀ p ∈ run_multiple_trials [0, 1] behaveFail0 2, p.1 ≠ 0 →
        p.2 = algo_results behaveOk p.1 2) ∧
     (∀ p ∈ run_multiple_trials [0, 1] behaveFail0 2,
        p.2.costs.length = 2 ∧ p.2.histories.length = 2 ∧ p.2.solutions.length = 2)) :=
  ⟨fun t => rfl,
   run_multiple_trials_fault_isolation [0, 1] behaveOk behaveFail0 0 2
     (fun t => rfl)
     (fun c hc => funext fun t => by simp [behaveFail0, hc])⟩

/-- C9: `analyze_results` computes its statistics only over the finite
recorded costs: the success rate is the number of finite costs over the
total number of trials; mean and population standard deviation are taken over
the finite costs when at least one exists and are NaN (`none`) otherwise; min
and max are the NumPy extrema of the finite costs (`none` when there are
none). -/
theorem analyze_results_spec (costs : List (Option ℝ)) :
    (analyze_results costs).success_rate =
      ((costs.filterMap id).length : ℝ) / (costs.length : ℝ) ∧
    (analyze_results costs).mean =
      (if costs.filterMap id = [] then none
       else some ((costs.filterMap id).sum / ((costs.filterMap id).length : ℝ))) ∧
    (analyze_results costs).std =
      (if costs.filterMap id = [] then none
       else some (Real.sqrt (((costs.filterMap id).map fun c =>
         (c - (costs.filterMap id).sum / ((costs.filterMap id).length : ℝ)) ^ 2).sum
           / ((costs.filterMap id).length : ℝ)))) ∧
    (analyze_results costs).min = listMin (costs.filterMap id) ∧
    (analyze_results costs).max = listMax (costs.filterMap id) := by
  rcases h : costs.filterMap id with _ | ⟨x, xs⟩
  · refine ⟨?_, ?_, ?_, ?_, ?_⟩ <;> simp [analyze_results, h, listMin, listMax]
  · refine ⟨?_, ?_, ?_, ?_, ?_⟩ <;> simp [analyze_results, h]

/-- The solar base curve at hour 12: `50*sin(pi*(12-6)/12) + 1 = 51`. -/
theorem base_solar_at_twelve : base_solar 12 = 51 := by
  have h1 : (12 : Fin 24).1 = 12 := rfl
  rw [base_solar, h1]
  rw [show Real.pi * (((12 : ℕ) : ℝ) - 6) / 12 = Real.pi / 2 by push_cast; ring]
  rw [Real.sin_pi_div_two]
  norm_num

/-- The demand base curve at hour 0: `80 + 30*sin(pi*(0+6)/12) = 110`. -/
theorem base_demand_at_zero : base_demand 0 = 110 := by
  have h1 : (0 : Fin 24).1 = 0 := rfl
  rw [base_demand, h1]
  rw [show Real.pi * (((0 : ℕ) : ℝ) + 6) / 12 = Real.pi / 2 by push_cast; ring]
  rw [Real.sin_pi_div_two]
  norm_num

/-- C3: the code multiplies the base generation by the *failure* flag
(`P_solar = clip(base_solar * variation * solar_failure, 0, None)`), so with
the hour-12 solar outage flag SET and no noise the produced solar generation
is the full base value 51, not 0 — and with the flag clear it is zeroed.
The claim (generation is zeroed exactly on the outage flag) describes the
evident intent; the code inverts it. -/
theorem load_data_generation_kept_on_outage :
    ((load_data rngOutage (rngOutage.seedInit 0) 0).1.solar_failure 12 = true ∧
     (load_data rngOutage (rngOutage.seedInit 0) 0).1.P_solar 12 = 51 ∧ (51 : ℝ) ≠ 0) ∧
    ((load_data rngNoOutage (rngNoOutage.seedInit 0) 0).1.solar_failure 12 = false ∧
     (load_data rngNoOutage (rngNoOutage.seedInit 0) 0).1.P_solar 12 = 0) := by
  refine ⟨⟨rfl, ?_, by norm_num⟩, rfl, ?_⟩
  · show max (base_solar 12 * (1 + 0.15 * 0) * boolToReal true) 0 = 51
    rw [base_solar_at_twelve, boolToReal]
    norm_num
  · show max (base_solar 12 * (1 + 0.15 * 0) * boolToReal false) 0 = 0
    rw [base_solar_at_twelve, boolToReal]
    norm_num

/-- C6 counterexample: `P_demand` is never clipped, so a negative shared
variation draw (standard-normal value -10, giving `variation = -0.5`) makes
the hour-0 demand `110 * (-0.5) * 1 = -55 < 0`: the produced scenario
violates the claimed demand non-negativity. -/
theorem load_data_demand_negative :
    (load_data rngNegDemand (rngNegDemand.seedInit 0) 0).1.P_demand 0 < 0 := by
  show base_demand 0 * (1 + 0.15 * (-10)) * 1 < 0
  rw [base_demand_at_zero]
  norm_num

/-- C6 (amended): every scenario produced by `load_data` has all eight hourly
arrays of length 24 (they are functions on `Fin 24` by construction), the
solar and wind generation arrays non-negative (they are clipped), and every
price at least the 0.05 floor (given that the uniform spike factors are at
least 1, as draws from `[3,5]` are); the demand array, however, is not
clipped and can be negative. -/
theorem load_data_invariant_amended (R : RNGModel) (g : R.State) (trial : ℕ)
    (t : Fin 24) (hspike : ∀ s i, 1 ≤ (R.uniform4 3 5 s).1 i) :
    0 ≤ (load_data R g trial).1.P_solar t ∧
    0 ≤ (load_data R g trial).1.P_wind t ∧
    0.05 ≤ (load_data R g trial).1.grid_price t := by
  refine ⟨le_max_right _ _, le_max_right _ _, ?_⟩
  simp only [load_data]
  generalize (List.finRange 4).find? _ = q
  cases q with
  | none => exact le_max_right _ _
  | some i =>
    have h05 : (0.05 : ℝ) ≤ max (base_price t * (1 + 0.15 * (R.randn24 (R.seedInit trial)).1 t)) 0.05 :=
      le_max_right _ _
    calc (0.05 : ℝ) ≤ max (base_price t * (1 + 0.15 * (R.randn24 (R.seedInit trial)).1 t)) 0.05 := h05
    _ ≤ _ := le_mul_of_one_le_right (le_trans (by norm_num) h05) (hspike _ i)

/-- C6 witness: the amended invariant at the concrete generator `rngOutage`
(whose spike factors are all 3) at hour 0. -/
theorem load_data_invariant_amended_witness :
    (∀ (s : rngOutage.State) (i : Fin 4), (1 : ℝ) ≤ (rngOutage.uniform4 3 5 s).1 i) ∧
    (0 ≤ (load_data rngOutage (rngOutage.seedInit 0) 0).1.P_solar 0 ∧
     0 ≤ (load_data rngOutage (rngOutage.seedInit 0) 0).1.P_wind 0 ∧
     0.05 ≤ (load_data rngOutage (rngOutage.seedInit 0) 0).1.grid_price 0) :=
  ⟨fun s i => by show (1 : ℝ) ≤ 3; norm_num,
   load_data_invariant_amended rngOutage (rngOutage.seedInit 0) 0 0
     (fun s i => by show (1 : ℝ) ≤ 3; norm_num)⟩

/-- When the battery is idle at hour `t` (`u t = 0`), no emergency is flagged
and the grid is available, one loop iteration of `energy_cost` leaves the SOC
at 0.5 and the temperature at 25 and adds exactly the hour's grid-energy cost
plus its (possibly negative) carbon cost. -/
theorem energyStep_idle (sc : MicrogridData) (S : ℝ) (u : ℕ → ℝ) (t : ℕ)
    {k : ℕ} {c : ℝ} (hu : u t = 0) (hem : sc.emergency_event t = false)
    (hav : sc.grid_available t = true) :
    energyStep sc S u ⟨c, 0.5, 25, List.replicate k 0.5⟩ t =
      ⟨c + ((if 0 < sc.P_demand t - sc.P_gen t then
               (sc.P_demand t - sc.P_gen t) * sc.grid_price t else 0)
            + (sc.P_demand t - sc.P_gen t) * 0.487 * 2),
       0.5, 25, List.replicate (k + 1) 0.5⟩ := by
  have hrepl : ((0.5 : ℝ) :: List.replicate k (0.5 : ℝ)) = List.replicate (k + 1) 0.5 :=
    (List.replicate_succ _ _).symm
  have hm : (1 : ℕ) ≤ min 3 (k + 1) :=
    le_min (by norm_num) (Nat.succ_le_succ (Nat.zero_le k))
  have hmR : ((min 3 (k + 1) : ℕ) : ℝ) ≠ 0 := by
    exact_mod_cast Nat.one_le_iff_ne_zero.mp hm
  have hmean : ((List.replicate (k + 1) (0.5 : ℝ)).take 3).sum /
      (((List.replicate (k + 1) (0.5 : ℝ)).take 3).length : ℝ) = 0.5 := by
    rw [List.take_replicate, List.sum_replicate, List.length_replicate, nsmul_eq_mul,
        mul_comm, mul_div_assoc, div_self hmR, mul_one]
  have hrp : ((0 : ℝ)) ^ (1.5 : ℝ) = 0 := Real.zero_rpow (by norm_num)
  simp only [energyStep, hu, hem, hav, zero_mul, sub_zero, mul_zero, zero_div, abs_zero,
    add_zero, neg_zero, hrp, hrepl, hmean, sub_self, lt_self_iff_false, if_false,
    Bool.false_eq_true, Bool.true_eq_false, false_and, and_false, if_true,
    (by norm_num : ¬(45 : ℝ) < 25), (by norm_num : ¬(0.2 : ℝ) < 0),
    (by norm_num : max (0.1 : ℝ) 0.5 = 0.5), (by norm_num : min (0.9 : ℝ) 0.5 = 0.5)]

/-- Folding `energyStep` over an all-idle prefix of the horizon: the SOC
stays 0.5, the temperature stays 25, the SOC history is constantly 0.5, and
the cost accumulates the per-hour grid and carbon terms. -/
theorem foldl_energyStep_idle (sc : MicrogridData) (S : ℝ) (u : ℕ → ℝ)
    (c0 : ℝ) (n : ℕ) (hu : ∀ t < n, u t = 0)
    (hem : ∀ t < n, sc.emergency_event t = false)
    (hav : ∀ t < n, sc.grid_available t = true) :
    (List.range n).foldl (energyStep sc S u) ⟨c0, 0.5, 25, []⟩ =
      ⟨c0 + ((List.range n).map fun t =>
          (if 0 < sc.P_demand t - sc.P_gen t then
             (sc.P_demand t - sc.P_gen t) * sc.grid_price t else 0)
            + (sc.P_demand t - sc.P_gen t) * 0.487 * 2).sum,
       0.5, 25, List.replicate n 0.5⟩ := by
  induction n with
  | zero => simp
  | succ m ih =>
    rw [List.range_succ, List.foldl_append,
        ih (fun t ht => hu t (Nat.lt_succ_of_lt ht))
           (fun t ht => hem t (Nat.lt_succ_of_lt ht))
           (fun t ht => hav t (Nat.lt_succ_of_lt ht)),
        List.foldl_cons, List.foldl_nil,
        energyStep_idle sc S u m (hu m (Nat.lt_succ_self m))
          (hem m (Nat.lt_succ_self m)) (hav m (Nat.lt_succ_self m)),
        List.map_append, List.sum_append]
    simp [add_assoc]

/-- Full evaluation of `energy_cost` on the spec's worked example: zero
generation, demand 80, price 0.2, no faults, `S = 100`, `u = 0`.  The loop
contributes `24*(80*0.2) + 24*(80*0.487*2) = 2254.08` on top of the capital
cost 50000, and the post-loop efficiency penalty `(0.85 - 0)*1e4 = 8500`
fires because the renewable efficiency is 0. -/
theorem energy_cost_scExample_eval :
    (energy_cost scExample 100 uZero 25).1 = 60754.08 + 100 * |Real.sin 1| := by
  have hfold := foldl_energyStep_idle scExample 100 uZero (500 * 100) 24
    (fun t _ => rfl) (fun t _ => rfl) (fun t _ => rfl)
  simp only [energy_cost]
  rw [hfold]
  simp only [scExample, uZero]
  norm_num [List.map_const', List.sum_replicate]

/-- Full evaluation of `energy_cost` on the surplus scenario: generation
1000000, demand 1, price 0.05, no faults, `S = 1`, `u = 0`.  Every hour's
carbon term is `(1 - 1000000)*0.487*2`, the efficiency target is amply met,
and the total is deeply negative. -/
theorem energy_cost_scSurplus_eval :
    (energy_cost scSurplus 1 uZero 25).1 = -23375476.624 + 100 * |Real.sin 0.01| := by
  have hfold := foldl_energyStep_idle scSurplus 1 uZero (500 * 1) 24
    (fun t _ => rfl) (fun t _ => rfl) (fun t _ => rfl)
  simp only [energy_cost]
  rw [hfold]
  simp only [scSurplus, uZero]
  norm_num [List.map_const', List.sum_replicate]

/-- C1 counterexample: with the valid solution `S = 1 ∈ [1,2000]`,
`u = 0 ∈ [-0.5,0.5]` and a scenario satisfying the Scenario invariant
(non-negative arrays, price at the 0.05 floor) in which generation exceeds
demand, `energy_cost` returns a negative total: the unconditional carbon term
`P_grid*0.487*2` is negative on exported power and dominates every
non-negative term. -/
theorem energy_cost_can_be_negative :
    (energy_cost scSurplus 1 uZero 25).1 < 0 ∧
    (1 : ℝ) ≤ 1 ∧ (1 : ℝ) ≤ 2000 ∧ -0.5 ≤ uZero 0 ∧ uZero 0 ≤ 0.5 := by
  refine ⟨?_, by norm_num, by norm_num, by norm_num [uZero], by norm_num [uZero]⟩
  rw [energy_cost_scSurplus_eval]
  have h := Real.abs_sin_le_one 0.01
  linarith

/-- C2 counterexample: on the worked example the cost is NOT the claimed
closed form `500*100 + Σ(80*0.2) + Σ(80*0.487*2) + 100*|sin(1.0)|` — the
efficiency penalty is not zero for an idle battery with zero generation
(the renewable efficiency is 0 < 0.85), so the code adds a further 8500. -/
theorem energy_cost_example_ne_claimed :
    (energy_cost scExample 100 uZero 25).1 ≠
      500 * 100 + 24 * (80 * 0.2) + 24 * (80 * 0.487 * 2)
        + 100 * |Real.sin (100 * 0.01)| := by
  rw [energy_cost_scExample_eval]
  intro h
  rw [show (100 : ℝ) * 0.01 = 1 by norm_num] at h
  have h2 := add_right_cancel h
  norm_num at h2

/-- C2 (amended): the worked example evaluates to the claimed closed form
PLUS the efficiency penalty `(0.85 - 0) * 1e4 = 8500`; the degradation,
thermal and SOC-stability terms do each contribute 0. -/
theorem energy_cost_example_closed_form :
    (energy_cost scExample 100 uZero 25).1 =
      500 * 100 + 24 * (80 * 0.2) + 24 * (80 * 0.487 * 2) + (0.85 - 0) * 10000
        + 100 * |Real.sin (100 * 0.01)| := by
  rw [energy_cost_scExample_eval, show (100 : ℝ) * 0.01 = 1 by norm_num]
  norm_num

/-- One `energy_cost` loop iteration never decreases the running cost when
the hour's price is non-negative and the hour's grid power is an import
(non-negative), and it always leaves the SOC inside `[0.1, 0.9]`. -/
theorem energyStep_preserves (sc : MicrogridData) (S : ℝ) (u : ℕ → ℝ) (t : ℕ)
    (st : EvalState) (hp : 0 ≤ sc.grid_price t)
    (hg : 0 ≤ sc.P_demand t - sc.P_gen t - u t * (S * SOC_capacity_decay t))
    (hs1 : 0.1 ≤ st.SOC) :
    st.cost ≤ (energyStep sc S u st t).cost ∧
    0.1 ≤ (energyStep sc S u st t).SOC ∧ (energyStep sc S u st t).SOC ≤ 0.9 := by
  refine ⟨?_, ?_, ?_⟩
  · simp only [energyStep]
    refine le_add_of_le_of_nonneg (le_add_of_le_of_nonneg (le_add_of_le_of_nonneg
      (le_add_of_le_of_nonneg (le_add_of_le_of_nonneg (le_refl st.cost)
        ?_) ?_) ?_) ?_) ?_
    · split_ifs
      · exact mul_nonneg (le_max_left 0 _) (by norm_num)
      · exact le_refl 0
    · split_ifs
      · norm_num
      · exact le_refl 0
    · refine add_nonneg (add_nonneg ?_ ?_) ?_
      · split_ifs with h
        · exact mul_nonneg h.le hp
        · exact le_refl 0
      · refine mul_nonneg (mul_nonneg (by norm_num) ?_) ?_
        · exact Real.rpow_nonneg (abs_nonneg _) _
        · have h9 : (0 : ℝ) ≤ st.SOC / 0.9 := div_nonneg (by linarith) (by norm_num)
          linarith
      · exact mul_nonneg (mul_nonneg hg (by norm_num)) (by norm_num)
    · split_ifs <;> positivity
    · split_ifs <;> norm_num
  · simp only [energyStep]
    exact le_min (by norm_num) (le_max_left _ _)
  · simp only [energyStep]
    exact min_le_left _ _

/-- Folding `energyStep` over any list of hours with non-negative prices
and import-only grid power never decreases the cost, and keeps the SOC
inside `[0.1, 0.9]`. -/
theorem foldl_energyStep_bounds (sc : MicrogridData) (S : ℝ) (u : ℕ → ℝ)
    (l : List ℕ) (hp : ∀ t ∈ l, 0 ≤ sc.grid_price t)
    (hg : ∀ t ∈ l, 0 ≤ sc.P_demand t - sc.P_gen t - u t * (S * SOC_capacity_decay t)) :
    ∀ st : EvalState, 0.1 ≤ st.SOC →
      st.cost ≤ (l.foldl (energyStep sc S u) st).cost ∧
      0.1 ≤ (l.foldl (energyStep sc S u) st).SOC := by
  induction l with
  | nil => intro st h1; exact ⟨le_refl _, h1⟩
  | cons x xs ih =>
    intro st h1
    have hstep := energyStep_preserves sc S u x st
      (hp x (List.mem_cons_self x xs)) (hg x (List.mem_cons_self x xs)) h1
    have hrest := ih (fun t ht => hp t (List.mem_cons_of_mem x ht))
      (fun t ht => hg t (List.mem_cons_of_mem x ht))
      (energyStep sc S u st x) hstep.2.1
    rw [List.foldl_cons]
    exact ⟨le_trans hstep.1 hrest.1, hrest.2⟩

/-- C1 (amended): for any scenario with non-negative prices, any
`S ∈ [1, 2000]` and any `u_t ∈ [-0.5, 0.5]`, `energy_cost` returns a real
(hence finite) cost, and the cost is non-negative provided the grid power
`demand[t] - generation[t] - u[t]*S*decay[t]` is a non-negative import at
every hour: every term the loop and the post-loop add is then non-negative,
so the total is at least the capital cost `500*S ≥ 500`.  (Without that
condition on imports the carbon term can make the total negative.) -/
theorem energy_cost_nonneg_when_importing (sc : MicrogridData) (S : ℝ)
    (u : ℕ → ℝ) (T : ℝ) (hS1 : 1 ≤ S) (hS2 : S ≤ 2000)
    (hu : ∀ t < 24, -0.5 ≤ u t ∧ u t ≤ 0.5)
    (hp : ∀ t < 24, 0 ≤ sc.grid_price t)
    (hg : ∀ t < 24, 0 ≤ sc.P_demand t - sc.P_gen t - u t * (S * SOC_capacity_decay t)) :
    0 ≤ (energy_cost sc S u T).1 := by
  have hb := foldl_energyStep_bounds sc S u (List.range 24)
    (fun t ht => hp t (List.mem_range.mp ht))
    (fun t ht => hg t (List.mem_range.mp ht))
    ⟨500 * S, 0.5, 25, []⟩ (by norm_num)
  have hcost : (500 : ℝ) * S ≤
      ((List.range 24).foldl (energyStep sc S u) ⟨500 * S, 0.5, 25, []⟩).cost := hb.1
  have hpen : ∀ E : ℝ, (0 : ℝ) ≤ if E < 0.85 then (0.85 - E) * 10000 else 0 := by
    intro E
    split_ifs with h
    · linarith
    · exact le_refl 0
  simp only [energy_cost]
  refine add_nonneg (add_nonneg ?_ (hpen _)) (by positivity)
  linarith

/-- C1 witness: the amended non-negativity theorem instantiated on the
worked-example scenario with `S = 100`, `u = 0`. -/
theorem energy_cost_nonneg_when_importing_witness :
    ((1 : ℝ) ≤ 100 ∧ (100 : ℝ) ≤ 2000) ∧
    0 ≤ (energy_cost scExample 100 uZero 25).1 :=
  ⟨⟨by norm_num, by norm_num⟩,
   energy_cost_nonneg_when_importing scExample 100 uZero 25 (by norm_num)
     (by norm_num)
     (fun t _ => by norm_num [uZero])
     (fun t _ => by norm_num [scExample])
     (fun t _ => by norm_num [scExample, uZero])⟩

end RenewableOpt
